import Mathlib

/-!
Shallow embedding of the Grafana Explore pane state synchronizer
(`public/app/features/explore/state/explorePane.ts`, the single core source
file): the pane state model, the pane reducer, the `urlDiff` comparator and
the two orchestrator procedures `initializeExplore` and `refreshExplore`.

Pure functions of the source become Lean functions.  The redux thunks
(`initializeExplore`, `refreshExplore`) become functions from their inputs to
the ordered list of dispatched items; reading the store (`getState`) becomes
explicit arguments, and the external collaborators the module imports
(`parseUrlState`, `getTimeRangeFromUrl`, the data-source registry and loader)
become fields of an `Env` record.  Helpers that live in this repository but
outside the provided source (`getQueryKeys`, `ensureQueries`,
`generateNewKeyAndAddRefIdIfMissing`, the four sub-reducers,
`getUrlStateFromPaneState`, `DEFAULT_RANGE`, `createEmptyQueryResponse`) are
modelled from the spec and say so in their doc comments.
-/

namespace ExplorePane

/-- Identity of one Explore pane (split view has two). -/
inductive ExploreId where
  | left
  | right
  deriving DecidableEq, Repr

/-- A user-specified, possibly relative, time bound pair (e.g. "now-1h"/"now"). -/
structure RawTimeRange where
  fromRaw : String
  toRaw : String
  deriving DecidableEq, Repr

/-- An absolute time range: resolved endpoints plus the raw range it came from. -/
structure TimeRange where
  fromMs : Int
  toMs : Int
  raw : RawTimeRange
  deriving DecidableEq, Repr

/-- One query of the pane's query list.  The reference id is optional at the
model level because queries parsed from a URL may lack one; the normalization
step assigns missing ids.  Query content is abstracted as a string. -/
structure DataQuery where
  refId : Option String
  expr : String
  deriving DecidableEq, Repr

/-- A handle to a resolved data source; identified by its name. -/
structure DataSourceApi where
  name : String
  deriving DecidableEq, Repr

/-- One item of the per-data-source query history. -/
structure HistoryItem where
  ts : Nat
  query : String
  deriving DecidableEq, Repr

/-- Deduplication strategy for logs. -/
inductive LogsDedupStrategy where
  | none
  | exact
  | numbers
  | signature
  deriving DecidableEq, Repr

/-- Log level, used for the hidden-level display filter. -/
inductive LogLevel where
  | critical
  | error
  | warning
  | info
  | debug
  | trace
  deriving DecidableEq, Repr

/-- Loading state of the result container. -/
inductive LoadingState where
  | notStarted
  | loading
  | done
  | errored
  deriving DecidableEq, Repr

/-- The result container held by a pane. -/
structure QueryResponse where
  state : LoadingState
  seriesCount : Nat
  deriving DecidableEq, Repr

/-- Modelled from the spec: `queryResponse` is reset to an empty/untouched
sentinel on every (re)initialization (`createEmptyQueryResponse`). -/
def createEmptyQueryResponse : QueryResponse :=
  { state := LoadingState.notStarted, seriesCount := 0 }

/-- The opaque event channel owned by a pane; abstracted as an identifier. -/
def EventBus := Nat
deriving instance DecidableEq, Repr for EventBus

/-- Time zone of the current user; abstracted as a name. -/
def TimeZone := String
deriving instance DecidableEq, Repr for TimeZone

/-- The state of one Explore pane (`ExploreItemState`), restricted to the
fields the embedded module reads or writes. -/
structure ExploreItemState where
  initialized : Bool
  containerWidth : Nat
  eventBridge : EventBus
  queries : List DataQuery
  queryKeys : List String
  range : TimeRange
  datasourceInstance : Option DataSourceApi
  datasourceMissing : Bool
  history : List HistoryItem
  dedupStrategy : LogsDedupStrategy
  hiddenLogLevels : List LogLevel
  logsHighlighterExpressions : Option (List String)
  queryResponse : QueryResponse
  originPanelId : Option Int
  deriving DecidableEq, Repr

/-- The URL-encoded view description of a pane (`ExploreUrlState`).  The range
is optional: at runtime a parsed URL state may carry no range, and `urlDiff`
substitutes the default for an absent one. -/
structure ExploreUrlState where
  datasource : String
  queries : List DataQuery
  range : Option RawTimeRange
  originPanelId : Option Int
  deriving DecidableEq, Repr

/-- Modelled from the spec: the system default range substituted by `urlDiff`
for an absent range (`DEFAULT_RANGE` of `app/core/utils/explore`). -/
def DEFAULT_RANGE : RawTimeRange :=
  { fromRaw := "now-6h", toRaw := "now" }

/-- Modelled from the spec: derived cache keys, one per query, computed from
the query and the bound data source identity (`getQueryKeys` of
`app/core/utils/explore`).  The key of query `i` is the data source name (or
the query's own content when no data source is bound) tagged with `i`. -/
def getQueryKeys (queries : List DataQuery) (datasourceInstance : Option DataSourceApi) :
    List String :=
  queries.enum.map fun p =>
    (match datasourceInstance with
      | some d => d.name
      | none => p.2.expr) ++ "-" ++ toString p.1

/-- Payload of the Initialize action (`InitializeExplorePayload`). -/
structure InitializeExplorePayload where
  exploreId : ExploreId
  containerWidth : Nat
  eventBridge : EventBus
  queries : List DataQuery
  range : TimeRange
  history : List HistoryItem
  datasourceInstance : Option DataSourceApi
  originPanelId : Option Int
  deriving DecidableEq, Repr

/-- The actions declared by the embedded module, consumed by `paneReducer`:
ChangeSize, ChangeDedupStrategy, HighlightLogsExpression, InitializeExplore,
ToggleLogLevel and SetUrlReplaced. -/
inductive Action where
  | changeSize (exploreId : ExploreId) (width : Nat) (height : Nat)
  | changeDedupStrategy (exploreId : ExploreId) (dedupStrategy : LogsDedupStrategy)
  | highlightLogsExpression (exploreId : ExploreId) (expressions : List String)
  | initializeExplore (payload : InitializeExplorePayload)
  | toggleLogLevel (exploreId : ExploreId) (hiddenLogLevels : List LogLevel)
  | setUrlReplaced (exploreId : ExploreId)
  deriving DecidableEq, Repr

/-- Modelled from the spec: the query sub-reducer owns a field slice disjoint
from the pane-level actions and returns the state unchanged for actions it
does not recognize; none of the actions declared in this module is owned by a
sub-reducer (during INITIALIZE the pane-level composer, not the sub-reducers,
sets all cross-cutting fields). -/
def queryReducer (state : ExploreItemState) (_ : Action) : ExploreItemState :=
  state

/-- Modelled from the spec: the datasource sub-reducer, identity on every
action declared in this module (see `queryReducer`). -/
def datasourceReducer (state : ExploreItemState) (_ : Action) : ExploreItemState :=
  state

/-- Modelled from the spec: the time sub-reducer, identity on every action
declared in this module (see `queryReducer`). -/
def timeReducer (state : ExploreItemState) (_ : Action) : ExploreItemState :=
  state

/-- Modelled from the spec: the history sub-reducer, identity on every action
declared in this module (see `queryReducer`). -/
def historyReducer (state : ExploreItemState) (_ : Action) : ExploreItemState :=
  state

/-- Reducer for an Explore pane (`paneReducer`): runs the four sub-reducers in
sequence, then pattern-matches the pane-level actions.  Note the Initialize
branch computes `queryKeys` from `state.datasourceInstance` — the pane's
previous data source instance — exactly as the source does on its line 256,
while `datasourceInstance` and `datasourceMissing` are taken from the payload. -/
def paneReducer (state0 : ExploreItemState) (action : Action) : ExploreItemState :=
  let state1 := queryReducer state0 action
  let state2 := datasourceReducer state1 action
  let state3 := timeReducer state2 action
  let state := historyReducer state3 action
  match action with
  | Action.changeSize _ width _ =>
      { state with containerWidth := width }
  | Action.highlightLogsExpression _ expressions =>
      { state with logsHighlighterExpressions := some expressions }
  | Action.changeDedupStrategy _ dedupStrategy =>
      { state with dedupStrategy := dedupStrategy }
  | Action.initializeExplore p =>
      { state with
        containerWidth := p.containerWidth
        eventBridge := p.eventBridge
        range := p.range
        queries := p.queries
        initialized := true
        queryKeys := getQueryKeys p.queries state.datasourceInstance
        originPanelId := p.originPanelId
        datasourceInstance := p.datasourceInstance
        history := p.history
        datasourceMissing := p.datasourceInstance.isNone
        queryResponse := createEmptyQueryResponse
        logsHighlighterExpressions := none }
  | Action.toggleLogLevel _ hiddenLogLevels =>
      { state with hiddenLogLevels := hiddenLogLevels }
  | Action.setUrlReplaced _ =>
      state

/-- Result of `urlDiff`: which of data source, queries, range differ. -/
structure UrlDiffResult where
  datasource : Bool
  queries : Bool
  range : Bool
  deriving DecidableEq, Repr

/-- Compare two explore URL states and return which parts changed (`urlDiff`).
Each argument may be absent; `?.` projections become `Option.map`/`Option.bind`
and the `|| DEFAULT_RANGE` fallback becomes `Option.getD DEFAULT_RANGE` (a
present range object is always truthy in the source). -/
def urlDiff (oldUrlState currentUrlState : Option ExploreUrlState) : UrlDiffResult :=
  let datasource :=
    decide ¬(currentUrlState.map ExploreUrlState.datasource
              = oldUrlState.map ExploreUrlState.datasource)
  let queries :=
    decide ¬(currentUrlState.map ExploreUrlState.queries
              = oldUrlState.map ExploreUrlState.queries)
  let range :=
    decide ¬((currentUrlState.bind ExploreUrlState.range).getD DEFAULT_RANGE
              = (oldUrlState.bind ExploreUrlState.range).getD DEFAULT_RANGE)
  { datasource := datasource, queries := queries, range := range }

/-- Modelled from the spec: pick the next reference id not yet used by the
given list (`getNextRefIdChar` of `app/core/utils/explore`): the first of the
letters A, B, C, ... that no query of the list already carries. -/
def getNextRefIdChar (queries : List DataQuery) : String :=
  (["A", "B", "C", "D", "E", "F", "G", "H", "I", "J", "K", "L", "M",
    "N", "O", "P", "Q", "R", "S", "T", "U", "V", "W", "X", "Y", "Z"].find?
      fun c => queries.all fun q => q.refId ≠ some c).getD "A"

/-- Modelled from the spec: assign a reference id deterministically if missing,
without mutating an id that is already present and without colliding with ids
already assigned earlier in the same list
(`generateNewKeyAndAddRefIdIfMissing` of `app/core/utils/explore`; the fresh
rendering key it also attaches is elided from the model). -/
def generateNewKeyAndAddRefIdIfMissing (query : DataQuery) (queries : List DataQuery)
    (_ : Nat) : DataQuery :=
  match query.refId with
  | some _ => query
  | none => { query with refId := some (getNextRefIdChar queries) }

/-- The normalization loop of `refreshExplore` (source lines 180-185): walk the
incoming query list, pushing each query through
`generateNewKeyAndAddRefIdIfMissing` against the queries already pushed. -/
def normalizeLoop (acc : List DataQuery) : List DataQuery → List DataQuery
  | [] => acc
  | q :: rest => normalizeLoop (acc ++ [generateNewKeyAndAddRefIdIfMissing q acc acc.length]) rest

/-- The normalized (reference-id-assigned) query list built by
`refreshExplore`'s loop, starting from an empty accumulator. -/
def normalizeQueries (queries : List DataQuery) : List DataQuery :=
  normalizeLoop [] queries

/-- Modelled from the spec: normalize the incoming query list for a full
(re)initialization (`ensureQueries` of `app/core/utils/explore`): each query
gets a reference id, assigned by position when missing. -/
def ensureQueries (queries : List DataQuery) : List DataQuery :=
  normalizeQueries queries

/-- Modelled from the spec: read-only projection of a pane state back into
URL-state shape (`getUrlStateFromPaneState` of `./main`). -/
def getUrlStateFromPaneState (state : ExploreItemState) : ExploreUrlState :=
  { datasource :=
      match state.datasourceInstance with
      | some d => d.name
      | none => ""
    queries := state.queries
    range := some state.range.raw
    originPanelId := state.originPanelId }

/-- The external collaborators consumed by the orchestrator procedures
(spec section 6): URL parsing, raw-range resolution, the current time zone,
the data source registry and the data source loader.  Reading the redux store
becomes explicit arguments of the procedures themselves. -/
structure Env where
  parseUrlState : String → ExploreUrlState
  getTimeRangeFromUrl : Option RawTimeRange → TimeZone → TimeRange
  timeZone : TimeZone
  exploreDatasources : List DataSourceApi
  loadAndInitDatasource : String → DataSourceApi × List HistoryItem

/-- One item dispatched by an orchestrator procedure: either a plain action
reduced synchronously, or the invocation of another thunk. -/
inductive Dispatched where
  | initializeExploreProc (exploreId : ExploreId) (datasourceName : String)
      (queries : List DataQuery) (range : TimeRange) (containerWidth : Nat)
      (eventBridge : EventBus) (originPanelId : Option Int)
  | initializeExploreAction (payload : InitializeExplorePayload)
  | updateTime (exploreId : ExploreId) (rawRange : Option RawTimeRange)
  | setQueries (exploreId : ExploreId) (queries : List DataQuery)
  | runQueries (exploreId : ExploreId)
  | richHistoryUpdated
  deriving DecidableEq, Repr

/-- Recognizer for a dispatched query run. -/
def Dispatched.isRunQueries : Dispatched → Bool
  | Dispatched.runQueries _ => true
  | _ => false

/-- Recognizer for a dispatched query-list replacement. -/
def Dispatched.isSetQueries : Dispatched → Bool
  | Dispatched.setQueries _ _ => true
  | _ => false

/-- Recognizer for a dispatched time update. -/
def Dispatched.isUpdateTime : Dispatched → Bool
  | Dispatched.updateTime _ _ => true
  | _ => false

/-- The `initializeExplore` thunk (source lines 119-161) as the ordered list of
its dispatches: when at least one data source is configured, resolve the named
data source and its history, else leave the instance absent; dispatch the
Initialize action, then a time update, then — if and only if an instance was
resolved — a query run, then the rich-history snapshot update. -/
def initializeExplore (env : Env) (exploreId : ExploreId) (datasourceName : String)
    (queries : List DataQuery) (range : TimeRange) (containerWidth : Nat)
    (eventBridge : EventBus) (originPanelId : Option Int) : List Dispatched :=
  let loaded : Option (DataSourceApi × List HistoryItem) :=
    if env.exploreDatasources.length ≥ 1 then
      some (env.loadAndInitDatasource datasourceName)
    else
      none
  let inst : Option DataSourceApi := loaded.map Prod.fst
  let history : List HistoryItem := (loaded.map Prod.snd).getD []
  [Dispatched.initializeExploreAction
      { exploreId := exploreId
        containerWidth := containerWidth
        eventBridge := eventBridge
        queries := queries
        range := range
        originPanelId := originPanelId
        datasourceInstance := inst
        history := history },
   Dispatched.updateTime exploreId none]
  ++ (if inst.isSome then [Dispatched.runQueries exploreId] else [])
  ++ [Dispatched.richHistoryUpdated]

/-- The `refreshExplore` thunk (source lines 167-213) as the ordered list of
its dispatches.  A non-initialized pane returns immediately with no dispatch.
Otherwise the parsed URL state is diffed against the pane state projected into
URL shape; a data source change dispatches a full re-initialization and
returns; else a range change dispatches a time update carrying the new raw
range, a query change dispatches a query-list replacement with the normalized
queries (two independent conditionals, as in the source), and a query run is
dispatched once when either differed. -/
def refreshExplore (env : Env) (itemState : ExploreItemState) (exploreId : ExploreId)
    (urlQuery : String) : List Dispatched :=
  if !itemState.initialized then
    []
  else
    let urlState := env.parseUrlState urlQuery
    let update := urlDiff (some urlState) (some (getUrlStateFromPaneState itemState))
    let refreshQueries := normalizeQueries urlState.queries
    let range := env.getTimeRangeFromUrl urlState.range env.timeZone
    if update.datasource then
      [Dispatched.initializeExploreProc exploreId urlState.datasource
        (ensureQueries urlState.queries) range itemState.containerWidth
        itemState.eventBridge urlState.originPanelId]
    else
      (if update.range then [Dispatched.updateTime exploreId (some range.raw)] else [])
      ++ (if update.queries then [Dispatched.setQueries exploreId refreshQueries] else [])
      ++ (if update.queries || update.range then [Dispatched.runQueries exploreId] else [])

/-! ### Concrete fixtures used by counterexamples and witnesses -/

/-- A data source named "A". -/
def dsA : DataSourceApi := { name := "A" }

/-- A data source named "B". -/
def dsB : DataSourceApi := { name := "B" }

/-- A query with reference id "A". -/
def q1 : DataQuery := { refId := some "A", expr := "up" }

/-- A different query, same reference id. -/
def q2 : DataQuery := { refId := some "A", expr := "down" }

/-- A query with no reference id yet. -/
def q3 : DataQuery := { refId := none, expr := "rate" }

/-- Raw range "now-1h".."now". -/
def rawR1 : RawTimeRange := { fromRaw := "now-1h", toRaw := "now" }

/-- Raw range "now-6h".."now". -/
def rawR6 : RawTimeRange := { fromRaw := "now-6h", toRaw := "now" }

/-- An absolute range resolving `rawR1`. -/
def tr1 : TimeRange := { fromMs := 0, toMs := 100, raw := rawR1 }

/-- An initialized pane bound to data source "A" with one query and range `tr1`. -/
def baseState : ExploreItemState :=
  { initialized := true
    containerWidth := 500
    eventBridge := (0 : Nat)
    queries := [q1]
    queryKeys := ["A-0"]
    range := tr1
    datasourceInstance := some dsA
    datasourceMissing := false
    history := []
    dedupStrategy := LogsDedupStrategy.none
    hiddenLogLevels := []
    logsHighlighterExpressions := none
    queryResponse := createEmptyQueryResponse
    originPanelId := none }

/-- The same pane, not yet initialized. -/
def uninitState : ExploreItemState :=
  { baseState with initialized := false }

/-- An Initialize payload carrying the new data source "B". -/
def payloadB : InitializeExplorePayload :=
  { exploreId := ExploreId.left
    containerWidth := 500
    eventBridge := (0 : Nat)
    queries := [q1]
    range := tr1
    history := []
    datasourceInstance := some dsB
    originPanelId := none }

/-- A resolver mapping every raw range (default for an absent one) to an
absolute range that keeps the raw range. -/
def fixedResolve : Option RawTimeRange → TimeZone → TimeRange :=
  fun r _ => { fromMs := 0, toMs := 0, raw := r.getD DEFAULT_RANGE }

/-- Environment whose URL parses to the same data source and queries as
`baseState` but the range "now-6h" instead of "now-1h". -/
def envRange : Env :=
  { parseUrlState := fun _ =>
      { datasource := "A", queries := [q1], range := some rawR6, originPanelId := none }
    getTimeRangeFromUrl := fixedResolve
    timeZone := "utc"
    exploreDatasources := [dsA]
    loadAndInitDatasource := fun _ => (dsA, []) }

/-- Environment whose URL differs from `baseState` in both queries and range,
but not in data source. -/
def envBoth : Env :=
  { envRange with
    parseUrlState := fun _ =>
      { datasource := "A", queries := [q2], range := some rawR6, originPanelId := none } }

/-- Environment whose URL differs from `baseState` only in the data source. -/
def envDs : Env :=
  { envRange with
    parseUrlState := fun _ =>
      { datasource := "B", queries := [q1, q3], range := some rawR1, originPanelId := none } }

/-- Environment with zero configured data sources. -/
def envNoDs : Env :=
  { envRange with exploreDatasources := [] }

/-- A URL state with no range. -/
def sNoRange : ExploreUrlState :=
  { datasource := "A", queries := [q1], range := none, originPanelId := none }

/-- Another URL state with no range, differing everywhere else. -/
def tNoRange : ExploreUrlState :=
  { datasource := "B", queries := [], range := none, originPanelId := some 3 }

/-! ### Helper lemmas -/

/-- `getQueryKeys` yields one key per query. -/
theorem getQueryKeys_length (qs : List DataQuery) (ds : Option DataSourceApi) :
    (getQueryKeys qs ds).length = qs.length := by
  simp [getQueryKeys]

/-- Every query pushed by the normalization loop carries a reference id,
provided the accumulator's queries already do. -/
theorem normalizeLoop_refId_isSome (qs : List DataQuery) :
    ∀ acc : List DataQuery, (∀ q ∈ acc, q.refId.isSome = true) →
      ∀ q ∈ normalizeLoop acc qs, q.refId.isSome = true := by
  induction qs with
  | nil =>
      intro acc hacc q hq
      exact hacc q hq
  | cons q rest ih =>
      intro acc hacc q' hq'
      refine ih _ ?_ q' hq'
      intro r hr
      rcases List.mem_append.mp hr with h | h
      · exact hacc r h
      · have hr' : r = generateNewKeyAndAddRefIdIfMissing q acc acc.length := by
          simpa using h
        subst hr'
        unfold generateNewKeyAndAddRefIdIfMissing
        cases hqr : q.refId <;> simp [hqr]

/-- Every query of a normalized list carries a reference id. -/
theorem ensureQueries_refId_isSome (qs : List DataQuery) :
    ∀ q ∈ ensureQueries qs, q.refId.isSome = true := by
  have h := normalizeLoop_refId_isSome qs [] (by intro q hq; exact absurd hq (List.not_mem_nil q))
  simpa [ensureQueries, normalizeQueries] using h

/-- Characterization of `refreshExplore` on an initialized pane: the guard
falls through and the dispatch list is decided by the diff. -/
theorem refreshExplore_initialized_eq (env : Env) (s : ExploreItemState) (ex : ExploreId)
    (u : String) (hinit : s.initialized = true) :
    refreshExplore env s ex u =
      (if (urlDiff (some (env.parseUrlState u)) (some (getUrlStateFromPaneState s))).datasource then
        [Dispatched.initializeExploreProc ex (env.parseUrlState u).datasource
          (ensureQueries (env.parseUrlState u).queries)
          (env.getTimeRangeFromUrl (env.parseUrlState u).range env.timeZone)
          s.containerWidth s.eventBridge (env.parseUrlState u).originPanelId]
      else
        (if (urlDiff (some (env.parseUrlState u)) (some (getUrlStateFromPaneState s))).range then
          [Dispatched.updateTime ex
            (some (env.getTimeRangeFromUrl (env.parseUrlState u).range env.timeZone).raw)]
        else [])
        ++ (if (urlDiff (some (env.parseUrlState u)) (some (getUrlStateFromPaneState s))).queries then
          [Dispatched.setQueries ex (normalizeQueries (env.parseUrlState u).queries)]
        else [])
        ++ (if (urlDiff (some (env.parseUrlState u)) (some (getUrlStateFromPaneState s))).queries
              || (urlDiff (some (env.parseUrlState u)) (some (getUrlStateFromPaneState s))).range then
          [Dispatched.runQueries ex]
        else [])) := by
  unfold refreshExplore
  rw [hinit]
  rfl

/-! ### Claims -/

/-- C1: the claim says the Initialize branch of `paneReducer` recomputes
`queryKeys` from the new queries and the *new* `datasourceInstance` carried by
the action.  The code instead computes them from the pane's *previous*
`datasourceInstance`: a pane bound to data source "A" receiving an Initialize
action carrying data source "B" ends with `queryKeys = ["A-0"]`, not the
`["B-0"]` the new instance would give, even though the post-state's
`datasourceInstance` is the new one. -/
theorem C1_queryKeys_use_previous_instance :
    (paneReducer baseState (Action.initializeExplore payloadB)).queryKeys = ["A-0"] ∧
    getQueryKeys payloadB.queries payloadB.datasourceInstance = ["B-0"] ∧
    (paneReducer baseState (Action.initializeExplore payloadB)).queryKeys
      = getQueryKeys payloadB.queries baseState.datasourceInstance ∧
    (paneReducer baseState (Action.initializeExplore payloadB)).queryKeys
      ≠ getQueryKeys payloadB.queries payloadB.datasourceInstance ∧
    (paneReducer baseState (Action.initializeExplore payloadB)).datasourceInstance
      = payloadB.datasourceInstance := by
  refine ⟨by decide, by decide, by decide, by decide, by decide⟩

/-- C9: `urlDiff` applied to the same well-formed view state on both sides
returns the all-false diff. -/
theorem C9_urlDiff_reflexive (S : ExploreUrlState) :
    urlDiff (some S) (some S)
      = { datasource := false, queries := false, range := false } := by
  simp [urlDiff]

/-- C10: a ChangeSize action updates only `containerWidth`, from the action's
width; the height carried by the payload is ignored and every other field of
the pane state is unchanged. -/
theorem C10_changeSize_only_containerWidth (s : ExploreItemState) (ex : ExploreId)
    (w hgt : Nat) :
    paneReducer s (Action.changeSize ex w hgt) = { s with containerWidth := w } := rfl

/-- C5: on a pane whose `initialized` flag is false, `refreshExplore`
dispatches nothing for any URL query string (and hence the pane state, which
only changes through dispatched actions, is untouched). -/
theorem C5_refresh_noop_when_not_initialized (env : Env) (s : ExploreItemState)
    (ex : ExploreId) (u : String) (h : s.initialized = false) :
    refreshExplore env s ex u = [] := by
  simp [refreshExplore, h]

/-- C7: `paneReducer` preserves the invariant `queryKeys.length =
queries.length` for every action; and after an Initialize action with N
queries the post-state has `queryKeys.length = N` and `initialized = true`. -/
theorem C7_queryKeys_length_invariant :
    (∀ (s : ExploreItemState) (a : Action),
        s.queryKeys.length = s.queries.length →
        (paneReducer s a).queryKeys.length = (paneReducer s a).queries.length) ∧
    (∀ (s : ExploreItemState) (p : InitializeExplorePayload),
        (paneReducer s (Action.initializeExplore p)).queryKeys.length = p.queries.length ∧
        (paneReducer s (Action.initializeExplore p)).initialized = true) := by
  constructor
  · intro s a h
    cases a <;>
      simp [paneReducer, queryReducer, datasourceReducer, timeReducer, historyReducer,
        getQueryKeys_length, h]
  · intro s p
    exact ⟨by
      simp [paneReducer, queryReducer, datasourceReducer, timeReducer, historyReducer,
        getQueryKeys_length], rfl⟩

/-- Witness for C7 at a concrete pane and action. -/
theorem C7_witness :
    baseState.queryKeys.length = baseState.queries.length ∧
    (paneReducer baseState (Action.toggleLogLevel ExploreId.left [LogLevel.error])).queryKeys.length
      = (paneReducer baseState (Action.toggleLogLevel ExploreId.left [LogLevel.error])).queries.length :=
  ⟨by decide,
   C7_queryKeys_length_invariant.1 baseState
     (Action.toggleLogLevel ExploreId.left [LogLevel.error]) (by decide)⟩

/-- C8: `urlDiff` is a total function; called with both arguments absent it
returns the all-false diff; its range component is true exactly when the two
ranges differ after substituting `DEFAULT_RANGE` for an absent range, so two
absent ranges compare equal. -/
theorem C8_urlDiff_absent_defaults :
    urlDiff none none = { datasource := false, queries := false, range := false } ∧
    (∀ a b : Option ExploreUrlState,
        ((urlDiff a b).range = true ↔
          (b.bind ExploreUrlState.range).getD DEFAULT_RANGE
            ≠ (a.bind ExploreUrlState.range).getD DEFAULT_RANGE)) ∧
    (∀ s t : ExploreUrlState, s.range = none → t.range = none →
        (urlDiff (some s) (some t)).range = false) := by
  refine ⟨by decide, ?_, ?_⟩
  · intro a b
    simp [urlDiff]
  · intro s t hs ht
    simp [urlDiff, hs, ht]

/-- Witness for C8 at two concrete states with absent ranges. -/
theorem C8_witness :
    sNoRange.range = none ∧ tNoRange.range = none ∧
    (urlDiff (some sNoRange) (some tNoRange)).range = false :=
  ⟨rfl, rfl, C8_urlDiff_absent_defaults.2.2 sNoRange tNoRange rfl rfl⟩

/-- C2: on an initialized pane, when the diff has `datasource` false and at
least one of `queries` or `range` true, `refreshExplore` dispatches exactly
one query run, even when both differed. -/
theorem C2_exactly_one_query_run (env : Env) (s : ExploreItemState) (ex : ExploreId)
    (u : String) (hinit : s.initialized = true)
    (hds : (urlDiff (some (env.parseUrlState u)) (some (getUrlStateFromPaneState s))).datasource
      = false)
    (hqr : ((urlDiff (some (env.parseUrlState u)) (some (getUrlStateFromPaneState s))).queries
      || (urlDiff (some (env.parseUrlState u)) (some (getUrlStateFromPaneState s))).range)
      = true) :
    ((refreshExplore env s ex u).filter Dispatched.isRunQueries).length = 1 := by
  rw [refreshExplore_initialized_eq env s ex u hinit, hds]
  cases hq : (urlDiff (some (env.parseUrlState u)) (some (getUrlStateFromPaneState s))).queries <;>
    cases hr : (urlDiff (some (env.parseUrlState u)) (some (getUrlStateFromPaneState s))).range <;>
      simp_all [List.filter_append, Dispatched.isRunQueries]

/-- Witness for C2 at a concrete pane and environment where only the range
differs. -/
theorem C2_witness :
    ((refreshExplore envRange baseState ExploreId.left "u").filter
      Dispatched.isRunQueries).length = 1 :=
  C2_exactly_one_query_run envRange baseState ExploreId.left "u" rfl (by decide) (by decide)

/-- C3: on an initialized pane, when the diff has `datasource` true,
`refreshExplore` dispatches exactly the full re-initialization procedure with
the new data source name, the normalized (reference-id-assigned) query list
and the new range, and no incremental time update, query-list replacement or
standalone query run. -/
theorem C3_datasource_change_full_reinit (env : Env) (s : ExploreItemState) (ex : ExploreId)
    (u : String) (hinit : s.initialized = true)
    (hds : (urlDiff (some (env.parseUrlState u)) (some (getUrlStateFromPaneState s))).datasource
      = true) :
    refreshExplore env s ex u
      = [Dispatched.initializeExploreProc ex (env.parseUrlState u).datasource
          (ensureQueries (env.parseUrlState u).queries)
          (env.getTimeRangeFromUrl (env.parseUrlState u).range env.timeZone)
          s.containerWidth s.eventBridge (env.parseUrlState u).originPanelId] ∧
    (∀ q ∈ ensureQueries (env.parseUrlState u).queries, q.refId.isSome = true) ∧
    (refreshExplore env s ex u).filter
        (fun d => d.isUpdateTime || d.isSetQueries || d.isRunQueries) = [] := by
  have heq : refreshExplore env s ex u
      = [Dispatched.initializeExploreProc ex (env.parseUrlState u).datasource
          (ensureQueries (env.parseUrlState u).queries)
          (env.getTimeRangeFromUrl (env.parseUrlState u).range env.timeZone)
          s.containerWidth s.eventBridge (env.parseUrlState u).originPanelId] := by
    rw [refreshExplore_initialized_eq env s ex u hinit, hds]
    rfl
  refine ⟨heq, ensureQueries_refId_isSome _, ?_⟩
  rw [heq]
  rfl

/-- Witness for C3 at a concrete pane and environment where the data source
differs. -/
theorem C3_witness :
    (urlDiff (some (envDs.parseUrlState "u"))
      (some (getUrlStateFromPaneState baseState))).datasource = true ∧
    refreshExplore envDs baseState ExploreId.left "u"
      = [Dispatched.initializeExploreProc ExploreId.left (envDs.parseUrlState "u").datasource
          (ensureQueries (envDs.parseUrlState "u").queries)
          (envDs.getTimeRangeFromUrl (envDs.parseUrlState "u").range envDs.timeZone)
          baseState.containerWidth baseState.eventBridge
          (envDs.parseUrlState "u").originPanelId] :=
  ⟨by decide,
   (C3_datasource_change_full_reinit envDs baseState ExploreId.left "u" rfl (by decide)).1⟩

/-- C4 counterexample: the claim says the range and queries corrections form
an else-chain, so that when `diff.range` is true the query list is not
touched.  At a concrete initialized pane whose URL differs in both queries and
range (datasource unchanged), the code dispatches both the time update and a
query-list replacement: the two conditionals are independent, not chained. -/
theorem C4_counterexample :
    (urlDiff (some (envBoth.parseUrlState "u"))
      (some (getUrlStateFromPaneState baseState))).datasource = false ∧
    (urlDiff (some (envBoth.parseUrlState "u"))
      (some (getUrlStateFromPaneState baseState))).range = true ∧
    (urlDiff (some (envBoth.parseUrlState "u"))
      (some (getUrlStateFromPaneState baseState))).queries = true ∧
    (refreshExplore envBoth baseState ExploreId.left "u").filter Dispatched.isSetQueries
      = [Dispatched.setQueries ExploreId.left [q2]] ∧
    (refreshExplore envBoth baseState ExploreId.left "u").filter Dispatched.isUpdateTime
      = [Dispatched.updateTime ExploreId.left (some rawR6)] := by
  refine ⟨by decide, by decide, by decide, by decide, by decide⟩

/-- C4 amended: on an initialized pane with `datasource` unchanged, the range
and queries corrections are two independent conditionals: a time update
carrying the new raw range is dispatched exactly when `diff.range` is true,
and a query-list replacement with the normalized queries is dispatched exactly
when `diff.queries` is true — both are dispatched when both differ. -/
theorem C4_range_queries_independent (env : Env) (s : ExploreItemState) (ex : ExploreId)
    (u : String) (hinit : s.initialized = true)
    (hds : (urlDiff (some (env.parseUrlState u)) (some (getUrlStateFromPaneState s))).datasource
      = false) :
    ((urlDiff (some (env.parseUrlState u)) (some (getUrlStateFromPaneState s))).range = true →
      (refreshExplore env s ex u).filter Dispatched.isUpdateTime
        = [Dispatched.updateTime ex
            (some (env.getTimeRangeFromUrl (env.parseUrlState u).range env.timeZone).raw)]) ∧
    ((urlDiff (some (env.parseUrlState u)) (some (getUrlStateFromPaneState s))).range = false →
      (refreshExplore env s ex u).filter Dispatched.isUpdateTime = []) ∧
    ((urlDiff (some (env.parseUrlState u)) (some (getUrlStateFromPaneState s))).queries = true →
      (refreshExplore env s ex u).filter Dispatched.isSetQueries
        = [Dispatched.setQueries ex (normalizeQueries (env.parseUrlState u).queries)]) ∧
    ((urlDiff (some (env.parseUrlState u)) (some (getUrlStateFromPaneState s))).queries = false →
      (refreshExplore env s ex u).filter Dispatched.isSetQueries = []) := by
  rw [refreshExplore_initialized_eq env s ex u hinit, hds]
  cases hq : (urlDiff (some (env.parseUrlState u)) (some (getUrlStateFromPaneState s))).queries <;>
    cases hr : (urlDiff (some (env.parseUrlState u)) (some (getUrlStateFromPaneState s))).range <;>
      simp_all [List.filter_append, Dispatched.isUpdateTime, Dispatched.isSetQueries,
        Dispatched.isRunQueries]

/-- Witness for the amended C4 at a concrete pane where both queries and range
differ: both corrections are dispatched. -/
theorem C4_witness :
    (refreshExplore envBoth baseState ExploreId.left "u").filter Dispatched.isUpdateTime
      = [Dispatched.updateTime ExploreId.left
          (some (envBoth.getTimeRangeFromUrl (envBoth.parseUrlState "u").range
            envBoth.timeZone).raw)] ∧
    (refreshExplore envBoth baseState ExploreId.left "u").filter Dispatched.isSetQueries
      = [Dispatched.setQueries ExploreId.left
          (normalizeQueries (envBoth.parseUrlState "u").queries)] :=
  ⟨(C4_range_queries_independent envBoth baseState ExploreId.left "u" rfl (by decide)).1
      (by decide),
   (C4_range_queries_independent envBoth baseState ExploreId.left "u" rfl (by decide)).2.2.1
      (by decide)⟩

/-- C6: with zero configured data sources, `initializeExplore` completes,
skips resolution and dispatches the Initialize action with an absent instance
(so the reduced pane has `datasourceInstance` absent and `datasourceMissing`
true), a time update and the rich-history update but no query run; and in
general a query run is dispatched if and only if the dispatched Initialize
payload carries a resolved data source instance. -/
theorem C6_initialize_without_datasources (env : Env) (s : ExploreItemState) (ex : ExploreId)
    (dsName : String) (qs : List DataQuery) (r : TimeRange) (cw : Nat) (eb : EventBus)
    (opid : Option Int) :
    (env.exploreDatasources = [] →
      initializeExplore env ex dsName qs r cw eb opid
        = [Dispatched.initializeExploreAction
            { exploreId := ex, containerWidth := cw, eventBridge := eb, queries := qs,
              range := r, originPanelId := opid, datasourceInstance := none, history := [] },
           Dispatched.updateTime ex none, Dispatched.richHistoryUpdated] ∧
      (paneReducer s (Action.initializeExplore
          { exploreId := ex, containerWidth := cw, eventBridge := eb, queries := qs,
            range := r, originPanelId := opid, datasourceInstance := none,
            history := [] })).datasourceMissing = true ∧
      (paneReducer s (Action.initializeExplore
          { exploreId := ex, containerWidth := cw, eventBridge := eb, queries := qs,
            range := r, originPanelId := opid, datasourceInstance := none,
            history := [] })).datasourceInstance = none) ∧
    (∀ p : InitializeExplorePayload,
      Dispatched.initializeExploreAction p ∈ initializeExplore env ex dsName qs r cw eb opid →
      ((Dispatched.runQueries ex ∈ initializeExplore env ex dsName qs r cw eb opid) ↔
        p.datasourceInstance.isSome = true)) := by
  constructor
  · intro h0
    refine ⟨by simp [initializeExplore, h0], ?_, ?_⟩
    · simp [paneReducer, queryReducer, datasourceReducer, timeReducer, historyReducer]
    · simp [paneReducer, queryReducer, datasourceReducer, timeReducer, historyReducer]
  · intro p hp
    by_cases hlen : env.exploreDatasources.length ≥ 1
    · simp [initializeExplore, hlen] at hp ⊢
      subst hp
      simp
    · simp [initializeExplore, hlen] at hp ⊢
      subst hp
      simp

/-- Witness for C6 at a concrete environment with zero data sources. -/
theorem C6_witness :
    envNoDs.exploreDatasources = [] ∧
    (paneReducer uninitState (Action.initializeExplore
        { exploreId := ExploreId.left, containerWidth := 500, eventBridge := (0 : Nat),
          queries := [q1], range := tr1, originPanelId := none,
          datasourceInstance := none, history := [] })).datasourceMissing = true :=
  ⟨rfl,
   ((C6_initialize_without_datasources envNoDs uninitState ExploreId.left "A" [q1] tr1 500
      (0 : Nat) none).1 rfl).2.1⟩

/-- Witness for C5 at a concrete non-initialized pane. -/
theorem C5_witness :
    uninitState.initialized = false ∧
    refreshExplore envRange uninitState ExploreId.left "q" = [] :=
  ⟨rfl, C5_refresh_noop_when_not_initialized envRange uninitState ExploreId.left "q" rfl⟩

end ExplorePane
